import Mathlib

/-!
Shallow embedding of the Librarian bot (src/bot.py): a Telegram bot that
maintains a deduplicated catalog (SQLite table `library`) of documents
posted into categorized forum threads.

Modelling conventions:
* The SQLite `library` table is a `List Row` (insertion order = rowid order);
  `INSERT` appends, `DELETE ... WHERE message_id = ?` filters.
* The cryptographic hash (hashlib) is modelled abstractly: a hash object's
  state is the byte stream fed to it so far, and the final hex digest is an
  arbitrary function `H` of that stream.  This captures exactly the
  incremental-update API the code relies on.
* Transport calls (aiogram) are modelled as oracles: an `Env` records the
  outcome each outward call would have.  Telegram's `edit_message_media`
  returns the edited message, which keeps its `message_id`; the model bakes
  in that transport fact.
* Python exceptions that the handler does not catch are modelled as an
  `Except PyExn` outcome.  Python strings in the parsing path are modelled
  as `List Char`; the `REAL` size column (`round(bytes / 2**20, 2)` MB) is
  modelled exactly as an integer count of hundredths of a megabyte.
* Local-only computation with no catalog or outward effect (thumbnail
  rendering, caption formatting, the stats text) is not tracked in the
  action trace.
-/

/-- One row of the `library` table (src/bot.py: create_library). -/
structure Row where
  id : String
  cat_name : String
  pages : Nat
  title : List Char
  authors : List Char
  size : Nat
  message_id : Nat
  file_id : String
deriving DecidableEq, Repr

/-- The static thread-id → category table (src/bot.py lines 31-56);
`to_cat[k]` on a missing key raises `KeyError`, hence `Option`. -/
def to_cat : Nat → Option String
  | 1052 => some "Algebra & Geometry"
  | 1054 => some "Algorithms"
  | 1056 => some "Book Series"
  | 1058 => some "Business"
  | 1060 => some "Calculus"
  | 1062 => some "Computer Science"
  | 1064 => some "Data Science"
  | 1066 => some "Discrete Mathematics"
  | 1068 => some "Economics"
  | 1070 => some "Linear Algebra"
  | 1072 => some "Linux"
  | 1074 => some "Literature"
  | 1076 => some "Machine Learning"
  | 1078 => some "Mathematics"
  | 1080 => some "Maths History"
  | 1082 => some "Maths Problems"
  | 1084 => some "Miscellaneous"
  | 1086 => some "Physics"
  | 1088 => some "Python"
  | 1090 => some "R"
  | 1092 => some "SQL"
  | 1094 => some "Statistics"
  | 1096 => some "Visualizations"
  | 5213 => some "C/C++"
  | _ => none

/-- Fuel-indexed chunked reading; `l.length` fuel is always enough, the
fuel only makes the recursion structural. -/
def readChunksF (n : Nat) : Nat -> List Nat -> List (List Nat)
  | 0, _ => []
  | fuel + 1, l =>
    if l.isEmpty || n == 0 then []
    else l.take n :: readChunksF n fuel (l.drop n)

/-- The successive chunks produced by `iter(lambda: f.read(chunk_size), b"")`:
reading stops at the first empty read, which happens at end of file or
immediately when `chunk_size = 0` (Python's `read(0)` returns `b""`). -/
def readChunks (n : Nat) (l : List Nat) : List (List Nat) :=
  readChunksF n l.length l

/-- A hashlib hash object, abstracted: its state is the byte stream fed so far. -/
structure HashObj where
  fed : List Nat
deriving DecidableEq

/-- Python `hash_obj.update(chunk)` appends the chunk to the stream being hashed. -/
def HashObj.update (h : HashObj) (chunk : List Nat) : HashObj :=
  ⟨h.fed ++ chunk⟩

/-- Python `hash_obj.hexdigest()`; `H` is the abstract digest function of the stream. -/
def HashObj.hexdigest (H : List Nat → String) (h : HashObj) : String :=
  H h.fed

/-- From src/bot.py lines 58-63: stream the file through the hash in
`chunk_size`-byte chunks and return the hex digest. -/
def get_file_hash (H : List Nat → String) (file : List Nat)
    (chunk_size : Nat) : String :=
  ((readChunks chunk_size file).foldl HashObj.update ⟨[]⟩).hexdigest H

/-- The single-pass digest of the whole byte string (the reference the spec
compares the chunked computation against). -/
def singlePassDigest (H : List Nat → String) (file : List Nat) : String :=
  (HashObj.update ⟨[]⟩ file).hexdigest H

/-- From src/bot.py lines 109-116: `INSERT INTO library ... VALUES (...)`. -/
def add_book (db : List Row) (r : Row) : List Row :=
  db ++ [r]

/-- From src/bot.py lines 118-120: `DELETE FROM library WHERE message_id = ?`. -/
def remove_book (db : List Row) (message_id : Nat) : List Row :=
  db.filter (fun r => r.message_id ≠ message_id)

/-- From src/bot.py lines 122-125: `SELECT 1 FROM library WHERE id = ?` nonempty. -/
def check_exists (db : List Row) (book_id : String) : Bool :=
  db.any (fun r => r.id = book_id)

/-- The result of `get_library_stats` (src/bot.py lines 147-153). -/
structure Stats where
  total_books : Nat
  total_pages : Nat
  total_size : Nat
  total_categories : Nat
  per_category : List (String × Nat × Nat × Nat)
deriving DecidableEq, Repr

/-- From src/bot.py lines 127-153: totals plus the per-category breakdown of
`GROUP BY cat_name ORDER BY cat_name` (modelled as the distinct category
names sorted ascending, each with its count and sums). -/
def get_library_stats (db : List Row) : Stats :=
  { total_books := db.length
    total_pages := (db.map Row.pages).sum
    total_size := (db.map Row.size).sum
    total_categories := (db.map Row.cat_name).dedup.length
    per_category :=
      (((db.map Row.cat_name).dedup).insertionSort (· ≤ ·)).map (fun c =>
        let rows := db.filter (fun r => r.cat_name = c)
        (c, rows.length, (rows.map Row.pages).sum, (rows.map Row.size).sum)) }

/-- Python `s.strip()`: trim whitespace on both sides. -/
def pyStrip (s : List Char) : List Char :=
  ((s.dropWhile Char.isWhitespace).reverse.dropWhile Char.isWhitespace).reverse

/-- Python `s.split(":", 1)` followed by unpacking into two names
(src/bot.py line 216): `none` when there is no `:` (the unpack raises
`ValueError` because the split yields a single part), otherwise the part
before the first `:` and everything after it. -/
def pySplit1 (s : List Char) : Option (List Char × List Char) :=
  let rest := s.dropWhile (fun c => c ≠ ':')
  match rest with
  | [] => none
  | _ :: after => some (s.takeWhile (fun c => c ≠ ':'), after)

/-- From src/bot.py lines 219-220: `round(file_size_bytes / (1024 * 1024), 2)`,
represented exactly as hundredths of a megabyte (Python rounds half to
even). -/
def fileSizeMB100 (bytes : Nat) : Nat :=
  let q := bytes * 100
  let d := 1024 * 1024
  let n := q / d
  let r := q % d
  if 2 * r < d then n
  else if d < 2 * r then n + 1
  else if n % 2 = 0 then n else n + 1

/-- Errors an aiogram call can raise (the three exception classes the
handler distinguishes). -/
inductive TgError where
  | retryAfter (secs : Nat)
  | networkError
  | badRequest
deriving DecidableEq, Repr

/-- Python exceptions that escape a handler uncaught. -/
inductive PyExn where
  | attributeError
  | valueError
  | keyError
  | telegramError (e : TgError)
deriving DecidableEq, Repr

deriving instance DecidableEq for Except

/-- A message returned by a successful outward send. -/
structure SentMsg where
  message_id : Nat
  file_id : String
deriving DecidableEq, Repr

/-- What the incoming upload replies to (src/bot.py lines 235 and 251):
a forum-topic-created service message, a bot-authored catalog message
(whose id, caption and document file id the replacement path uses), a
message from a human, or nothing at all. -/
inductive ReplyContext where
  | topicCreated
  | botReply (message_id : Nat) (caption : String) (doc_file_id : String)
  | humanReply
  | noReply
deriving DecidableEq, Repr

/-- The fields of an incoming Telegram message the handler and its filters
read. -/
structure Msg where
  has_document : Bool
  document_file_id : String
  file_name : String
  message_thread_id : Option Nat
  from_user_id : Nat
  reply : ReplyContext
deriving DecidableEq, Repr

/-- Oracle for the external world during one `process_document` run: the
bytes of the downloaded file, what the PDF library reports for the
metadata title field and the page count, and the outcome each outward
transport call would have.  `editFileId` is the file id of the document
after `edit_message_media`; the edited message keeps its `message_id`, a
transport fact the model bakes in. -/
structure Env where
  fileBytes : List Nat
  metaTitle : Option (List Char)
  pageCount : Nat
  publish : Except TgError SentMsg
  archive : Except TgError SentMsg
  editFileId : Except TgError String
deriving DecidableEq, Repr

/-- Observable side effects of a handler run, in program order. -/
inductive Act where
  | getFile
  | computeHash
  | deleteUserMsg
  | removeLocal
  | sendPublish
  | sendArchive
  | editMedia
  | editStatsMsg
  | readStats
  | logWarn
  | sleep (secs : Nat)
  | dbInsert (r : Row)
  | dbDelete (message_id : Nat)
deriving DecidableEq, Repr

/-- Result of one handler run: the catalog afterwards, the action trace,
and whether the run returned normally or escaped with an exception. -/
structure RunResult where
  db : List Row
  trace : List Act
  outcome : Except PyExn Unit
deriving DecidableEq, Repr

/-- From src/bot.py lines 199-271, `process_document`, in source order:
fetch the file, hash it in 8192-byte chunks, delete the uploader's
message, short-circuit on a duplicate content id, parse the metadata
title as `authors: title` (an absent title raises `AttributeError`, a
title without `:` raises `ValueError` at the unpack), look the thread id
up in `to_cat` (`KeyError` on a miss), then branch on the reply context:
publish-then-insert for a new-topic reply (catching `TelegramRetryAfter`
by sleeping and `TelegramNetworkError` by logging, both without retry),
or delete-archive-edit-insert for a reply to a bot message (no exception
handling there at all). -/
def process_document (H : List Nat → String) (m : Msg) (env : Env)
    (db : List Row) : RunResult :=
  let unique_file_id := get_file_hash H env.fileBytes 8192
  let acts1 : List Act := [.getFile, .computeHash, .deleteUserMsg]
  if check_exists db unique_file_id then
    ⟨db, acts1 ++ [.removeLocal], .ok ()⟩
  else
    match env.metaTitle with
    | none => ⟨db, acts1, .error .attributeError⟩
    | some full_title =>
      match pySplit1 full_title with
      | none => ⟨db, acts1, .error .valueError⟩
      | some (a, t) =>
        let authors := pyStrip a
        let title := pyStrip t
        let npage := env.pageCount
        match m.message_thread_id.bind to_cat with
        | none => ⟨db, acts1, .error .keyError⟩
        | some cat_name =>
          let file_size_mb := fileSizeMB100 env.fileBytes.length
          match m.reply with
          | .noReply => ⟨db, acts1, .error .attributeError⟩
          | .topicCreated =>
            (match env.publish with
             | .ok sent =>
               let row : Row := ⟨unique_file_id, cat_name, npage, title,
                 authors, file_size_mb, sent.message_id, sent.file_id⟩
               ⟨add_book db row,
                acts1 ++ [.sendPublish, .dbInsert row, .removeLocal], .ok ()⟩
             | .error (.retryAfter s) =>
               ⟨db, acts1 ++ [.sendPublish, .logWarn, .sleep s, .removeLocal],
                .ok ()⟩
             | .error .networkError =>
               ⟨db, acts1 ++ [.sendPublish, .logWarn, .removeLocal], .ok ()⟩
             | .error .badRequest =>
               ⟨db, acts1 ++ [.sendPublish],
                .error (.telegramError .badRequest)⟩)
          | .botReply mid _oldCaption _oldFileId =>
            let db1 := remove_book db mid
            let acts2 := acts1 ++ [.dbDelete mid, .sendArchive]
            (match env.archive with
             | .error e => ⟨db1, acts2, .error (.telegramError e)⟩
             | .ok _ =>
               match env.editFileId with
               | .error e =>
                 ⟨db1, acts2 ++ [.editMedia], .error (.telegramError e)⟩
               | .ok newFileId =>
                 let row : Row := ⟨unique_file_id, cat_name, npage, title,
                   authors, file_size_mb, mid, newFileId⟩
                 ⟨add_book db1 row,
                  acts2 ++ [.editMedia, .dbInsert row, .removeLocal],
                  .ok ()⟩)
          | .humanReply => ⟨db, acts1 ++ [.removeLocal], .ok ()⟩

/-- From src/bot.py lines 168-197, `update_stats`: delete the invoking command
message, read the aggregate stats, render the report, and edit the pinned
status message (id 943) inside `suppress(TelegramBadRequest)`; a
`TelegramBadRequest` (the error when the pinned message is gone or not
editable) is swallowed, any other transport error escapes uncaught. -/
def update_stats (db : List Row) (editResult : Except TgError Unit) :
    RunResult :=
  let acts : List Act := [.deleteUserMsg, .readStats, .editStatsMsg]
  match editResult with
  | .ok () => ⟨db, acts, .ok ()⟩
  | .error .badRequest => ⟨db, acts, .ok ()⟩
  | .error e => ⟨db, acts, .error (.telegramError e)⟩

/-- Python truthiness of `message_thread_id` as tested by the
`F.message_thread_id` filter: present and nonzero. -/
def truthyThread : Option Nat → Bool
  | none => false
  | some n => n ≠ 0

/-- The aiogram filter row on `process_document` (src/bot.py lines
199-200): a document, a truthy thread id, the thread id not in
`[738, 741]`, and the sender one of the two hard-coded operator ids. -/
def passes_filter (m : Msg) : Bool :=
  m.has_document && truthyThread m.message_thread_id &&
    !(m.message_thread_id = some 738 || m.message_thread_id = some 741) &&
    (m.from_user_id = 569356638 || m.from_user_id = 1087968824)

/-- The dispatcher: `process_document` runs only when its filter row
matches; otherwise the event does not reach the handler at all. -/
def dispatch (H : List Nat → String) (m : Msg) (env : Env)
    (db : List Row) : RunResult :=
  if passes_filter m then process_document H m env db
  else ⟨db, [], .ok ()⟩

/-- Folding a sequence of upload events through the dispatcher (the bot
processes updates strictly sequentially, §5 of the design). -/
def run_events (H : List Nat → String) (evs : List (Msg × Env))
    (db : List Row) : List Row :=
  evs.foldl (fun d me => (dispatch H me.1 me.2 d).db) db

/-! ## Helper lemmas -/

theorem readChunksF_flatten (n : Nat) (hn : n ≠ 0) :
    ∀ fuel l, l.length ≤ fuel → (readChunksF n fuel l).flatten = l := by
  intro fuel
  induction fuel with
  | zero =>
    intro l hl
    rw [Nat.le_zero] at hl
    rw [List.eq_nil_of_length_eq_zero hl]
    rfl
  | succ fuel ih =>
    intro l hl
    rw [readChunksF]
    by_cases hemp : l.isEmpty
    · simp [hemp, List.isEmpty_iff.mp hemp]
    · have : ¬(l.isEmpty || n == 0) := by
        simp only [Bool.or_eq_true, beq_iff_eq]
        push_neg
        exact ⟨by simpa using hemp, hn⟩
      rw [if_neg this, List.flatten_cons,
        ih (l.drop n) ?_, List.take_append_drop]
      have hlpos : 0 < l.length := by
        cases l with
        | nil => simp at hemp
        | cons a as => simp
      simp only [List.length_drop]
      omega

theorem readChunks_join (n : Nat) (hn : n ≠ 0) (l : List Nat) :
    (readChunks n l).flatten = l :=
  readChunksF_flatten n hn l.length l le_rfl

theorem foldl_update (cs : List (List Nat)) (h : HashObj) :
    cs.foldl HashObj.update h = ⟨h.fed ++ cs.flatten⟩ := by
  induction cs generalizing h with
  | nil => simp [HashObj.update]
  | cons c cs ih => simp [ih, HashObj.update]

/-! ## C8 -/

/-- C8: the content-identity function is deterministic: for every digest
function, every file and every positive chunk size, the digest computed by
`get_file_hash` streaming the bytes through the hash in fixed-size chunks
equals the digest computed over the whole byte string in a single pass, so
byte-identical content always yields the same identifier regardless of the
(positive) chunk size. -/
theorem chunked_hash_eq_single_pass (H : List Nat → String) (file : List Nat)
    (chunk_size : Nat) (hcs : 0 < chunk_size) :
    get_file_hash H file chunk_size = singlePassDigest H file := by
  unfold get_file_hash singlePassDigest
  rw [foldl_update]
  simp [HashObj.update, HashObj.hexdigest,
    readChunks_join chunk_size (Nat.pos_iff_ne_zero.mp hcs) file]

/-- C8 witness: the default 8192-byte chunking of a concrete 5-byte file
under a concrete digest function agrees with the single-pass digest. -/
theorem chunked_hash_eq_single_pass_witness :
    0 < 2 ∧ get_file_hash (fun l => toString l.length) [10, 20, 30, 40, 50] 2
      = singlePassDigest (fun l => toString l.length) [10, 20, 30, 40, 50] :=
  ⟨by decide,
   chunked_hash_eq_single_pass (fun l => toString l.length)
     [10, 20, 30, 40, 50] 2 (by decide)⟩

/-! ## C7 -/

/-- C7: `get_library_stats` on the empty catalog returns zero totals
(books, pages, size, categories) and an empty per-category list, and on
every catalog the per-category breakdown is ordered by category name
ascending. -/
theorem stats_empty_zero_and_sorted :
    get_library_stats [] = ⟨0, 0, 0, 0, []⟩ ∧
      ∀ db : List Row,
        List.Sorted (· ≤ ·) ((get_library_stats db).per_category.map Prod.fst) := by
  constructor
  · rfl
  · intro db
    unfold get_library_stats
    simp only [List.map_map]
    have : (Prod.fst ∘ fun c =>
        (c, (db.filter (fun r => r.cat_name = c)).length,
          ((db.filter (fun r => r.cat_name = c)).map Row.pages).sum,
          ((db.filter (fun r => r.cat_name = c)).map Row.size).sum)) = id := by
      funext c; rfl
    rw [this, List.map_id]
    exact List.sorted_insertionSort (· ≤ ·) _

/-! ## Concrete fixtures used by witnesses and counterexamples -/

/-- A concrete digest function for witnesses: the length of the stream. -/
def Hfix : List Nat → String := fun l => "h" ++ toString l.length

/-- A concrete new-topic upload by an operator in thread 1052. -/
def mNew : Msg :=
  ⟨true, "tg-file-1", "b.pdf", some 1052, 569356638, .topicCreated⟩

/-- A concrete upload replying to the bot-authored catalog message 100. -/
def mRepl : Msg :=
  ⟨true, "tg-file-2", "c.pdf", some 1054, 1087968824,
    .botReply 100 "old caption" "old-file-id"⟩

/-- A fully successful environment: well-formed metadata, all sends succeed. -/
def envOk : Env :=
  ⟨[1, 2, 3], some "Auth: Title".toList, 7, .ok ⟨200, "pub-fid"⟩,
    .ok ⟨201, "arch-fid"⟩, .ok "edit-fid"⟩

/-- A catalog row published earlier as message 100. -/
def rowOld : Row :=
  ⟨"h9", "Algorithms", 5, "Old".toList, "Olda".toList, 1, 100, "old-file-id"⟩

/-- An upload identical in content to `rowDup` (its id is `Hfix [1,2,3]`). -/
def rowDup : Row :=
  ⟨"h3", "Python", 1, "T".toList, "A".toList, 0, 300, "dup-fid"⟩

/-- Environment whose archive send fails with a transient network error. -/
def envArchFail : Env :=
  ⟨[1, 2, 3], some "Auth: Title".toList, 7, .ok ⟨200, "pub-fid"⟩,
    .error .networkError, .ok "edit-fid"⟩

/-- Environment whose metadata title has no colon separator. -/
def envNoColon : Env :=
  ⟨[1, 2, 3], some "NoColon".toList, 7, .ok ⟨200, "pub-fid"⟩,
    .ok ⟨201, "arch-fid"⟩, .ok "edit-fid"⟩

/-- Environment whose publish is rate-limited with a 5-second wait. -/
def envRate : Env :=
  ⟨[1, 2, 3], some "Auth: Title".toList, 7, .error (.retryAfter 5),
    .ok ⟨201, "arch-fid"⟩, .ok "edit-fid"⟩

/-- A new-topic operator upload in a thread with no category mapping. -/
def mUnmapped : Msg :=
  ⟨true, "tg-file-3", "d.pdf", some 999, 569356638, .topicCreated⟩

/-- A document message from a non-operator sender. -/
def mNotOp : Msg :=
  ⟨true, "tg-file-4", "e.pdf", some 1052, 42, .topicCreated⟩

/-! ## Helper lemmas about the catalog operations -/

theorem check_exists_false_iff (db : List Row) (book_id : String) :
    check_exists db book_id = false ↔ ∀ r ∈ db, r.id ≠ book_id := by
  simp [check_exists]

theorem nodup_ids_add_book (db : List Row) (r : Row)
    (hnd : (db.map Row.id).Nodup) (hex : check_exists db r.id = false) :
    ((add_book db r).map Row.id).Nodup := by
  rw [check_exists_false_iff] at hex
  simp only [add_book, List.map_append, List.map_cons, List.map_nil]
  rw [List.nodup_append]
  refine ⟨hnd, List.nodup_singleton _, ?_⟩
  intro x hx
  simp only [List.mem_singleton]
  rcases List.mem_map.mp hx with ⟨r', hr', rfl⟩
  intro hcontra
  exact hex r' hr' hcontra

theorem remove_book_sublist (db : List Row) (mid : Nat) :
    (remove_book db mid).Sublist db :=
  List.filter_sublist db

theorem nodup_ids_remove_book (db : List Row) (mid : Nat)
    (hnd : (db.map Row.id).Nodup) :
    ((remove_book db mid).map Row.id).Nodup :=
  List.Nodup.sublist (List.Sublist.map Row.id (remove_book_sublist db mid)) hnd

theorem check_exists_remove_book (db : List Row) (mid : Nat)
    (book_id : String) (hex : check_exists db book_id = false) :
    check_exists (remove_book db mid) book_id = false := by
  rw [check_exists_false_iff] at hex ⊢
  exact fun r hr => hex r ((remove_book_sublist db mid).mem hr)

theorem length_remove_book (db : List Row) (mid : Nat) :
    (remove_book db mid).length
      + (db.filter (fun r => r.message_id = mid)).length = db.length := by
  induction db with
  | nil => rfl
  | cons r rs ih =>
    by_cases h : r.message_id = mid <;>
      simp [remove_book, List.filter_cons, h] at * <;>
      omega

/-! ## C9 -/

/-- C9: when editing the pinned status message fails with the
`TelegramBadRequest` the transport raises for a deleted or otherwise
unreachable message, the stats refresh completes silently as a no-op —
it returns normally (the error is suppressed) and the catalog is exactly
what it was. -/
theorem stats_refresh_silent_noop (db : List Row)
    (editResult : Except TgError Unit)
    (h : editResult = .error .badRequest) :
    update_stats db editResult =
      ⟨db, [.deleteUserMsg, .readStats, .editStatsMsg], .ok ()⟩ := by
  subst h
  rfl

/-- C9 witness: a refresh over a one-row catalog whose pinned-message edit
fails with `TelegramBadRequest` returns normally with the catalog intact. -/
theorem stats_refresh_silent_noop_witness :
    update_stats [rowOld] (.error .badRequest) =
      ⟨[rowOld], [.deleteUserMsg, .readStats, .editStatsMsg], .ok ()⟩ :=
  stats_refresh_silent_noop [rowOld] (.error .badRequest) rfl

/-! ## C10 -/

/-- C10: the filter row on `process_document` gates ingestion at the
interface: a document event whose sender is not one of the two hard-coded
operator ids, or that carries no thread identifier, or whose thread
identifier is 738 or 741, never reaches the handler — the dispatcher
leaves the catalog untouched and performs no action at all (no hash, no
catalog mutation, no outward message). -/
theorem filter_gates_handler (H : List Nat → String) (m : Msg) (env : Env)
    (db : List Row)
    (h : ¬(m.from_user_id = 569356638 ∨ m.from_user_id = 1087968824) ∨
      m.message_thread_id = none ∨
      m.message_thread_id = some 738 ∨ m.message_thread_id = some 741) :
    dispatch H m env db = ⟨db, [], .ok ()⟩ := by
  have hpf : passes_filter m = false := by
    rcases h with h | h | h | h
    · push_neg at h
      simp [passes_filter, h.1, h.2]
    · simp [passes_filter, truthyThread, h]
    · simp [passes_filter, h]
    · simp [passes_filter, h]
  simp [dispatch, hpf]

/-- C10 witness: a document event from sender 42 (not an operator) in a
mapped thread is never handled: catalog untouched, empty action trace. -/
theorem filter_gates_handler_witness :
    dispatch Hfix mNotOp envOk [rowOld] = ⟨[rowOld], [], .ok ()⟩ :=
  filter_gates_handler Hfix mNotOp envOk [rowOld] (Or.inl (by decide))

/-! ## C3 -/

/-- C3 counterexample: an upload whose metadata title lacks a `:`
separator does not produce a structured `MetadataFormatError` rejection —
`process_document` terminates with an uncaught `ValueError` (the tuple
unpack on line 216 of src/bot.py), and its trace contains no rejection
report to anyone (indeed no outward send at all after the upload message
is deleted). -/
theorem malformed_metadata_cex :
    envNoColon.metaTitle = some "NoColon".toList ∧
      (process_document Hfix mNew envNoColon []).outcome
        = .error .valueError ∧
      (process_document Hfix mNew envNoColon []).trace
        = [.getFile, .computeHash, .deleteUserMsg] := by
  refine ⟨rfl, ?_, ?_⟩ <;> decide

/-- C3 amended: for every upload whose metadata title field is absent,
empty, or lacks a `:` separator (and whose content is not already
catalogued, so the parse is reached), ingestion terminates with an
uncaught exception — `AttributeError` when the field is absent,
`ValueError` when it is empty or has no colon — rather than a
`MetadataFormatError` rejection; the catalog row set is unchanged and no
outward message (in particular no report with the offending filename) is
sent. -/
theorem malformed_metadata_crashes (H : List Nat → String) (m : Msg)
    (env : Env) (db : List Row)
    (hex : check_exists db (get_file_hash H env.fileBytes 8192) = false) :
    (env.metaTitle = none →
      process_document H m env db =
        ⟨db, [.getFile, .computeHash, .deleteUserMsg],
          .error .attributeError⟩) ∧
    (∀ t, env.metaTitle = some t → pySplit1 t = none →
      process_document H m env db =
        ⟨db, [.getFile, .computeHash, .deleteUserMsg], .error .valueError⟩) := by
  constructor
  · intro hnone
    simp [process_document, hex, hnone]
  · intro t hsome hsplit
    simp [process_document, hex, hsome, hsplit]

/-- C3 witness for the amended claim: a concrete absent title and a
concrete colon-free title both crash with the catalog unchanged. -/
theorem malformed_metadata_crashes_witness :
    process_document Hfix mNew
        ⟨[1, 2, 3], none, 7, .ok ⟨200, "f"⟩, .ok ⟨201, "g"⟩, .ok "e"⟩ [] =
      ⟨[], [.getFile, .computeHash, .deleteUserMsg], .error .attributeError⟩ ∧
    process_document Hfix mNew envNoColon [] =
      ⟨[], [.getFile, .computeHash, .deleteUserMsg], .error .valueError⟩ :=
  ⟨(malformed_metadata_crashes Hfix mNew _ [] (by decide)).1 rfl,
   (malformed_metadata_crashes Hfix mNew envNoColon [] (by decide)).2
     "NoColon".toList rfl (by decide)⟩

/-! ## C4 -/

/-- C4 counterexample: an operator upload in thread 999 — which has no
entry in `to_cat` and is not excluded by the filter — is not rejected
with a structured `UnknownCategoryError`: `process_document` terminates
with an uncaught `KeyError` from the `to_cat[...]` lookup on line 218 of
src/bot.py. -/
theorem unmapped_thread_cex :
    passes_filter mUnmapped = true ∧
      to_cat 999 = none ∧
      (process_document Hfix mUnmapped envOk []).outcome
        = .error .keyError := by
  refine ⟨by decide, rfl, by decide⟩

/-- C4 amended: for every upload whose thread identifier has no entry in
the static category mapping (content not already catalogued and metadata
well-formed, so the lookup is reached), the event terminates with an
uncaught `KeyError` — not a graceful `UnknownCategoryError` rejection —
before any catalog mutation and before any outward message is sent: the
catalog is unchanged and the trace contains no send and no insert or
delete. -/
theorem unmapped_thread_crashes (H : List Nat → String) (m : Msg)
    (env : Env) (db : List Row) (t a b : List Char)
    (hex : check_exists db (get_file_hash H env.fileBytes 8192) = false)
    (hsome : env.metaTitle = some t) (hsplit : pySplit1 t = some (a, b))
    (hcat : m.message_thread_id.bind to_cat = none) :
    process_document H m env db =
      ⟨db, [.getFile, .computeHash, .deleteUserMsg], .error .keyError⟩ := by
  simp [process_document, hex, hsome, hsplit, hcat]

/-- C4 witness for the amended claim: the concrete thread-999 upload
crashes with `KeyError`, catalog unchanged and nothing sent. -/
theorem unmapped_thread_crashes_witness :
    process_document Hfix mUnmapped envOk [] =
      ⟨[], [.getFile, .computeHash, .deleteUserMsg], .error .keyError⟩ :=
  unmapped_thread_crashes Hfix mUnmapped envOk [] "Auth: Title".toList
    "Auth".toList " Title".toList (by decide) rfl (by decide) rfl

/-! ## C5 -/

/-- C5 counterexample: on `TelegramRetryAfter(retry_after=5)` during
publish the coordinator does not retry: the trace contains exactly one
publish attempt (the claim requires a second one after the wait), it
sleeps for the reported 5 seconds, and the catalog gains zero rows even
though the transport would have accepted the retry (the oracle's publish
outcome is fixed; no second attempt consults it). -/
theorem rate_limit_retry_cex :
    envRate.publish = .error (.retryAfter 5) ∧
      ((process_document Hfix mNew envRate []).trace.count .sendPublish
        = 1) ∧
      Act.sleep 5 ∈ (process_document Hfix mNew envRate []).trace ∧
      (process_document Hfix mNew envRate []).db = [] := by
  refine ⟨rfl, by decide, by decide, by decide⟩

/-- C5 amended: when the publish of a NEW upload fails with a rate-limit
error carrying a wait duration, the coordinator logs, suspends once for
exactly the reported duration, and then abandons the event without any
retry: the trace holds a single publish attempt followed by the sleep,
and the catalog gains zero rows (it is returned unchanged). -/
theorem rate_limit_no_retry (H : List Nat → String) (m : Msg) (env : Env)
    (db : List Row) (t a b : List Char) (cat : String) (s : Nat)
    (hex : check_exists db (get_file_hash H env.fileBytes 8192) = false)
    (hsome : env.metaTitle = some t) (hsplit : pySplit1 t = some (a, b))
    (hcat : m.message_thread_id.bind to_cat = some cat)
    (hrep : m.reply = .topicCreated)
    (hpub : env.publish = .error (.retryAfter s)) :
    process_document H m env db =
      ⟨db, [.getFile, .computeHash, .deleteUserMsg, .sendPublish, .logWarn,
        .sleep s, .removeLocal], .ok ()⟩ := by
  simp [process_document, hex, hsome, hsplit, hcat, hrep, hpub]

/-- C5 witness for the amended claim: the concrete rate-limited upload
sleeps 5 seconds, is not retried, and leaves the catalog empty. -/
theorem rate_limit_no_retry_witness :
    process_document Hfix mNew envRate [] =
      ⟨[], [.getFile, .computeHash, .deleteUserMsg, .sendPublish, .logWarn,
        .sleep 5, .removeLocal], .ok ()⟩ :=
  rate_limit_no_retry Hfix mNew envRate [] "Auth: Title".toList
    "Auth".toList " Title".toList "Algebra & Geometry" 5 (by decide) rfl
    (by decide) rfl rfl rfl

/-! ## C1 -/

/-- C1 counterexample: a replacement event whose archive send fails with
a transient network error does not leave the catalog as it was — the old
row was already deleted (the `remove_book` on line 257 of src/bot.py runs
before the sends), so the one-row catalog ends up empty and the trace
records the delete. -/
theorem network_failure_mutates_cex :
    envArchFail.archive = .error .networkError ∧
      (process_document Hfix mRepl envArchFail [rowOld]).db ≠ [rowOld] ∧
      Act.dbDelete 100
        ∈ (process_document Hfix mRepl envArchFail [rowOld]).trace := by
  refine ⟨rfl, by decide, by decide⟩

/-- C1 amended: a transient network failure of the outward send leaves
the catalog unchanged only on the NEW path; on the REPLACEMENT path the
old row is deleted before the archive and edit sends, so a network
failure there (of the archive, or of the edit after a successful archive)
leaves the catalog with the old row already removed and no row inserted,
and the event dies with the uncaught transport exception. -/
theorem network_failure_catalog_effect (H : List Nat → String) (m : Msg)
    (env : Env) (db : List Row) (t a b : List Char) (cat : String)
    (hex : check_exists db (get_file_hash H env.fileBytes 8192) = false)
    (hsome : env.metaTitle = some t) (hsplit : pySplit1 t = some (a, b))
    (hcat : m.message_thread_id.bind to_cat = some cat) :
    (m.reply = .topicCreated → env.publish = .error .networkError →
      process_document H m env db =
        ⟨db, [.getFile, .computeHash, .deleteUserMsg, .sendPublish, .logWarn,
          .removeLocal], .ok ()⟩) ∧
    (∀ mid cap fid, m.reply = .botReply mid cap fid →
      env.archive = .error .networkError →
      process_document H m env db =
        ⟨remove_book db mid,
          [.getFile, .computeHash, .deleteUserMsg, .dbDelete mid,
            .sendArchive],
          .error (.telegramError .networkError)⟩) ∧
    (∀ mid cap fid sa, m.reply = .botReply mid cap fid →
      env.archive = .ok sa → env.editFileId = .error .networkError →
      process_document H m env db =
        ⟨remove_book db mid,
          [.getFile, .computeHash, .deleteUserMsg, .dbDelete mid,
            .sendArchive, .editMedia],
          .error (.telegramError .networkError)⟩) := by
  refine ⟨?_, ?_, ?_⟩
  · intro hrep hpub
    simp [process_document, hex, hsome, hsplit, hcat, hrep, hpub]
  · intro mid cap fid hrep harch
    simp [process_document, hex, hsome, hsplit, hcat, hrep, harch]
  · intro mid cap fid sa hrep harch hedit
    simp [process_document, hex, hsome, hsplit, hcat, hrep, harch, hedit]

/-- C1 witness for the amended claim: a NEW upload whose publish dies
with a network error leaves the catalog empty as it started, and the
concrete replacement of `rowOld` whose archive dies with a network error
leaves the catalog with the old row deleted and nothing inserted. -/
theorem network_failure_catalog_effect_witness :
    process_document Hfix mNew
        ⟨[1, 2, 3], some "Auth: Title".toList, 7, .error .networkError,
          .ok ⟨201, "g"⟩, .ok "e"⟩ [] =
      ⟨[], [.getFile, .computeHash, .deleteUserMsg, .sendPublish, .logWarn,
        .removeLocal], .ok ()⟩ ∧
    process_document Hfix mRepl envArchFail [rowOld] =
      ⟨remove_book [rowOld] 100,
        [.getFile, .computeHash, .deleteUserMsg, .dbDelete 100,
          .sendArchive],
        .error (.telegramError .networkError)⟩ :=
  ⟨(network_failure_catalog_effect Hfix mNew _ [] "Auth: Title".toList
      "Auth".toList " Title".toList "Algebra & Geometry" (by decide) rfl
      (by decide) rfl).1 rfl rfl,
   (network_failure_catalog_effect Hfix mRepl envArchFail [rowOld]
      "Auth: Title".toList "Auth".toList " Title".toList "Algorithms"
      (by decide) rfl (by decide) rfl).2.1 100 "old caption" "old-file-id"
      rfl rfl⟩

/-! ## C6 -/

/-- C6: a successful replacement event (an upload replying to the
bot-authored catalog message `mid`) deletes the old row strictly before
inserting the new one — the trace is `..., dbDelete mid, sendArchive,
editMedia, dbInsert row, ...`, delete at position 3 and insert at
position 6 — the resulting catalog is `add_book (remove_book db mid) row`
so when exactly one row carried `mid` the total count is unchanged, and
the inserted row carries the same canonical message id `mid` as the row
it replaced (Telegram's edit keeps the message id). -/
theorem replacement_delete_before_insert (H : List Nat → String) (m : Msg)
    (env : Env) (db : List Row) (t a b : List Char) (cat : String)
    (mid : Nat) (cap fid : String) (sa : SentMsg) (nfid : String)
    (hex : check_exists db (get_file_hash H env.fileBytes 8192) = false)
    (hsome : env.metaTitle = some t) (hsplit : pySplit1 t = some (a, b))
    (hcat : m.message_thread_id.bind to_cat = some cat)
    (hrep : m.reply = .botReply mid cap fid)
    (harch : env.archive = .ok sa) (hedit : env.editFileId = .ok nfid)
    (hcount : (db.filter (fun r => r.message_id = mid)).length = 1) :
    (process_document H m env db =
      ⟨add_book (remove_book db mid)
          ⟨get_file_hash H env.fileBytes 8192, cat, env.pageCount,
            pyStrip b, pyStrip a, fileSizeMB100 env.fileBytes.length,
            mid, nfid⟩,
        [.getFile, .computeHash, .deleteUserMsg, .dbDelete mid,
          .sendArchive, .editMedia,
          .dbInsert ⟨get_file_hash H env.fileBytes 8192, cat,
            env.pageCount, pyStrip b, pyStrip a,
            fileSizeMB100 env.fileBytes.length, mid, nfid⟩,
          .removeLocal], .ok ()⟩) ∧
    (process_document H m env db).db.length = db.length ∧
    (process_document H m env db).db.getLast? =
      some ⟨get_file_hash H env.fileBytes 8192, cat, env.pageCount,
        pyStrip b, pyStrip a, fileSizeMB100 env.fileBytes.length,
        mid, nfid⟩ ∧
    ∃ old ∈ db, old.message_id = mid := by
  have hmain : process_document H m env db =
      ⟨add_book (remove_book db mid)
          ⟨get_file_hash H env.fileBytes 8192, cat, env.pageCount,
            pyStrip b, pyStrip a, fileSizeMB100 env.fileBytes.length,
            mid, nfid⟩,
        [.getFile, .computeHash, .deleteUserMsg, .dbDelete mid,
          .sendArchive, .editMedia,
          .dbInsert ⟨get_file_hash H env.fileBytes 8192, cat,
            env.pageCount, pyStrip b, pyStrip a,
            fileSizeMB100 env.fileBytes.length, mid, nfid⟩,
          .removeLocal], .ok ()⟩ := by
    simp [process_document, hex, hsome, hsplit, hcat, hrep, harch, hedit]
  refine ⟨hmain, ?_, ?_, ?_⟩
  · rw [hmain]
    have := length_remove_book db mid
    simp only [add_book, List.length_append, List.length_cons,
      List.length_nil]
    omega
  · rw [hmain]
    simp [add_book]
  · have hne : db.filter (fun r => r.message_id = mid) ≠ [] := by
      intro hnil
      rw [hnil] at hcount
      simp at hcount
    obtain ⟨x, hx⟩ := List.exists_mem_of_ne_nil _ hne
    have := List.mem_filter.mp hx
    exact ⟨x, this.1, by simpa using this.2⟩

/-- C6 witness: replacing `rowOld` (catalog message 100) with new content
keeps the catalog at one row, the trace deletes before it inserts, and
the new row keeps canonical message id 100. -/
theorem replacement_delete_before_insert_witness :
    (process_document Hfix mRepl envOk [rowOld] =
      ⟨add_book (remove_book [rowOld] 100)
          ⟨"h3", "Algorithms", 7, "Title".toList, "Auth".toList, 0, 100,
            "edit-fid"⟩,
        [.getFile, .computeHash, .deleteUserMsg, .dbDelete 100,
          .sendArchive, .editMedia,
          .dbInsert ⟨"h3", "Algorithms", 7, "Title".toList, "Auth".toList,
            0, 100, "edit-fid"⟩,
          .removeLocal], .ok ()⟩) ∧
    (process_document Hfix mRepl envOk [rowOld]).db.length =
      [rowOld].length ∧
    (process_document Hfix mRepl envOk [rowOld]).db.getLast? =
      some ⟨"h3", "Algorithms", 7, "Title".toList, "Auth".toList, 0, 100,
        "edit-fid"⟩ ∧
    ∃ old ∈ [rowOld], old.message_id = 100 :=
  replacement_delete_before_insert Hfix mRepl envOk [rowOld]
    "Auth: Title".toList "Auth".toList " Title".toList "Algorithms" 100
    "old caption" "old-file-id" ⟨201, "arch-fid"⟩ "edit-fid" (by decide)
    rfl (by decide) rfl rfl rfl rfl (by decide)

/-! ## C2 -/

/-- Every run of `process_document` preserves distinctness of the content
ids in the catalog: it inserts a row only after `check_exists` reported
the row's id absent, and deletion only removes rows. -/
theorem nodup_ids_process (H : List Nat → String) (m : Msg) (env : Env)
    (db : List Row) (hnd : (db.map Row.id).Nodup) :
    ((process_document H m env db).db.map Row.id).Nodup := by
  by_cases hex : check_exists db (get_file_hash H env.fileBytes 8192) = true
  · simpa [process_document, hex] using hnd
  · rw [Bool.not_eq_true] at hex
    rcases hmeta : env.metaTitle with _ | t
    · simpa [process_document, hex, hmeta] using hnd
    rcases hps : pySplit1 t with _ | ⟨a, b⟩
    · simpa [process_document, hex, hmeta, hps] using hnd
    rcases hc : m.message_thread_id.bind to_cat with _ | cat
    · simpa [process_document, hex, hmeta, hps, hc] using hnd
    rcases hr : m.reply with _ | ⟨mid, cap, fid⟩ | _ | _
    · rcases hpub : env.publish with ⟨_ | _ | _⟩ | sent
      · simpa [process_document, hex, hmeta, hps, hc, hr, hpub] using hnd
      · simpa [process_document, hex, hmeta, hps, hc, hr, hpub] using hnd
      · simpa [process_document, hex, hmeta, hps, hc, hr, hpub] using hnd
      · have : (process_document H m env db).db =
            add_book db ⟨get_file_hash H env.fileBytes 8192, cat,
              env.pageCount, pyStrip b, pyStrip a,
              fileSizeMB100 env.fileBytes.length, sent.message_id,
              sent.file_id⟩ := by
          simp [process_document, hex, hmeta, hps, hc, hr, hpub]
        rw [this]
        exact nodup_ids_add_book db _ hnd hex
    · rcases harch : env.archive with e | sa
      · have : (process_document H m env db).db = remove_book db mid := by
          simp [process_document, hex, hmeta, hps, hc, hr, harch]
        rw [this]
        exact nodup_ids_remove_book db mid hnd
      rcases hedit : env.editFileId with e | nfid
      · have : (process_document H m env db).db = remove_book db mid := by
          simp [process_document, hex, hmeta, hps, hc, hr, harch, hedit]
        rw [this]
        exact nodup_ids_remove_book db mid hnd
      · have : (process_document H m env db).db =
            add_book (remove_book db mid)
              ⟨get_file_hash H env.fileBytes 8192, cat, env.pageCount,
                pyStrip b, pyStrip a, fileSizeMB100 env.fileBytes.length,
                mid, nfid⟩ := by
          simp [process_document, hex, hmeta, hps, hc, hr, harch, hedit]
        rw [this]
        exact nodup_ids_add_book _ _ (nodup_ids_remove_book db mid hnd)
          (check_exists_remove_book db mid _ hex)
    · simpa [process_document, hex, hmeta, hps, hc, hr] using hnd
    · simpa [process_document, hex, hmeta, hps, hc, hr] using hnd

/-- The dispatcher preserves distinctness of content ids as well. -/
theorem nodup_ids_dispatch (H : List Nat → String) (m : Msg) (env : Env)
    (db : List Row) (hnd : (db.map Row.id).Nodup) :
    ((dispatch H m env db).db.map Row.id).Nodup := by
  unfold dispatch
  split
  · exact nodup_ids_process H m env db hnd
  · exact hnd

/-- C2: an upload whose content hash is already catalogued short-circuits
— the run only fetches, hashes, deletes the upload message and removes
the local copy, performing no metadata parse, no catalog mutation and no
outward send, and returns the catalog untouched; consequently (second and
third conjuncts) every handler run, and every sequence of dispatched
events, preserves the invariant that the catalog holds at most one row
per content id. -/
theorem dedup_short_circuit_unique_ids (H : List Nat → String) (m : Msg)
    (env : Env) (db : List Row) :
    (check_exists db (get_file_hash H env.fileBytes 8192) = true →
      process_document H m env db =
        ⟨db, [.getFile, .computeHash, .deleteUserMsg, .removeLocal],
          .ok ()⟩) ∧
    ((db.map Row.id).Nodup →
      ((process_document H m env db).db.map Row.id).Nodup) ∧
    (∀ evs : List (Msg × Env), (db.map Row.id).Nodup →
      ((run_events H evs db).map Row.id).Nodup) := by
  refine ⟨?_, nodup_ids_process H m env db, ?_⟩
  · intro hex
    simp [process_document, hex]
  · intro evs
    induction evs generalizing db with
    | nil => exact fun h => h
    | cons e evs ih =>
      intro hnd
      exact ih _ (nodup_ids_dispatch H e.1 e.2 db hnd)

/-- C2 witness: re-uploading content already catalogued as `rowDup`
(hash `h3`) returns the catalog unchanged having only discarded the local
copy, and a two-event run (the duplicate, then a fresh insert) keeps the
content ids distinct. -/
theorem dedup_short_circuit_unique_ids_witness :
    (check_exists [rowDup] (get_file_hash Hfix [1, 2, 3] 8192) = true ∧
      process_document Hfix mNew envOk [rowDup] =
        ⟨[rowDup], [.getFile, .computeHash, .deleteUserMsg, .removeLocal],
          .ok ()⟩) ∧
    (([rowDup].map Row.id).Nodup ∧
      ((process_document Hfix mNew envOk [rowDup]).db.map Row.id).Nodup) ∧
    ((run_events Hfix [(mNew, envOk), (mRepl, envOk)] [rowDup]).map
      Row.id).Nodup :=
  ⟨⟨by decide,
    (dedup_short_circuit_unique_ids Hfix mNew envOk [rowDup]).1 (by decide)⟩,
   ⟨by decide,
    (dedup_short_circuit_unique_ids Hfix mNew envOk [rowDup]).2.1 (by decide)⟩,
   (dedup_short_circuit_unique_ids Hfix mNew envOk [rowDup]).2.2
     [(mNew, envOk), (mRepl, envOk)] (by decide)⟩
